import Mathlib

/-!
Verification of the secure-material management and operation-orchestration
layer of H3Tag-Core (packages/crypto/src/native): the self-zeroizing buffer
hierarchy (`memory.h`), the entropy-quality gate (`entropy_pool.cpp`), the
security-invariant monitor (`security_monitor.cpp`) and the orchestrator
(`quantum.cpp`), shallowly embedded as pure Lean functions.  C++ exceptions
are rendered as `Except` values; mutable object state is passed explicitly.
External collaborators (liboqs contexts, the OpenSSL CSPRNG and allocator,
the OpenSSL Base64 BIO codec) are opaque per the specification's §6 interface
list and appear as explicit outcome parameters or as executable models of
their documented interfaces.
-/

namespace H3Tag

/-- Exceptions of the C++ layer.  `memoryError` embeds `quantum::MemoryError`
(memory.h), `quantumError` embeds `quantum::QuantumError` (quantum.h) and
`runtimeError` embeds the plain `std::runtime_error` thrown inside
`entropy_pool.cpp`.  The `verificationError` constructor is Modelled from the
spec: §7 names a distinct `VerificationError` kind for infrastructure faults
during verification; the source defines no such class, and the constructor
exists only so that its absence from every code path can be stated. -/
inductive CppError where
  | memoryError (msg : String)
  | quantumError (msg : String)
  | runtimeError (msg : String)
  | verificationError (msg : String)
deriving DecidableEq

/-- Embeds `e.what()` of the C++ exception. -/
def CppError.what : CppError → String
  | .memoryError m => m
  | .quantumError m => m
  | .runtimeError m => m
  | .verificationError m => m

/-! ## SecurityMonitor (security_monitor.cpp) -/

/-- State of `SecurityMonitor::Implementation`: the two atomic flags, plus the
external failure sink (`security_errors.log` / stderr) modelled as the list of
(operation, error) records appended by `logFailure`.  The timestamp member is
not modelled (wall-clock time). -/
structure SecurityMonitorState where
  securityLevelMaintained : Bool
  sideChannelDetected : Bool
  log : List (String × String)
deriving DecidableEq

/-- State after `SecurityMonitor`'s constructor: the in-class member
initializers `securityLevelMaintained{true}`, `sideChannelDetected{false}`,
and an empty sink. -/
def SecurityMonitor.construct : SecurityMonitorState :=
  ⟨true, false, []⟩

/-- Embeds `SecurityMonitor::logFailure`: formats and appends a record to the
sink; the flags are not touched. -/
def SecurityMonitor.logFailure (st : SecurityMonitorState)
    (operation error : String) : SecurityMonitorState :=
  { st with log := st.log ++ [(operation, error)] }

/-- Embeds `SecurityMonitor::isSecurityLevelMaintained`. -/
def SecurityMonitor.isSecurityLevelMaintained (st : SecurityMonitorState) : Bool :=
  st.securityLevelMaintained

/-- Embeds `SecurityMonitor::detectSideChannelVulnerability`. -/
def SecurityMonitor.detectSideChannelVulnerability (st : SecurityMonitorState) : Bool :=
  st.sideChannelDetected

/-- Embeds `SecurityMonitor::initialize` (the name is shortened to the spec's
`reset`): restores `securityLevelMaintained = true`,
`sideChannelDetected = false`; the sink is untouched. -/
def SecurityMonitor.reset (st : SecurityMonitorState) : SecurityMonitorState :=
  { st with securityLevelMaintained := true, sideChannelDetected := false }

/-! ## EntropyPool (entropy_pool.cpp) -/

/-- State of `EntropyPool::Implementation`: the atomic cumulative counter
`entropyLevel`. -/
structure EntropyPoolState where
  entropyLevel : Nat
deriving DecidableEq

/-- The constant `MIN_ENTROPY_LEVEL` of `EntropyPool::Implementation`. -/
def MIN_ENTROPY_LEVEL : Nat := 256

/-- Embeds `EntropyPool::getBytes`.  `randOk` is the outcome of the opaque
provider call `RAND_bytes` and `randBytes` its output on success (spec §6:
`randomBytes(n) -> bytes | failure`).  On provider failure the function throws
`std::runtime_error` before the counter is touched; on success the
`std::atomic<size_t>` counter update `entropyLevel += length` is 64-bit
machine addition, so the new counter is `(entropyLevel + length) % 2^64`, and
the bytes are returned. -/
def EntropyPool.getBytes (st : EntropyPoolState) (length : Nat)
    (randOk : Bool) (randBytes : List Nat) :
    Except CppError (List Nat) × EntropyPoolState :=
  if randOk then
    (.ok randBytes, ⟨(st.entropyLevel + length) % 2 ^ 64⟩)
  else
    (.error (.runtimeError "Failed to generate random bytes"), st)

/-- Embeds `EntropyPool::hasGoodQuality`: `entropyLevel >= MIN_ENTROPY_LEVEL`. -/
def EntropyPool.hasGoodQuality (st : EntropyPoolState) : Bool :=
  decide (MIN_ENTROPY_LEVEL ≤ st.entropyLevel)

/-! ## SecureBuffer (memory.h) -/

/-- The value `std::numeric_limits<size_t>::max()` on the 64-bit targets the
code addresses. -/
def SIZE_MAX_64 : Nat := 2 ^ 64 - 1

/-- Value state of a `SecureBuffer<T>`: the element count `size_` and the
owned region `data_`, with `none` standing for the null pointer of a
moved-from buffer. -/
structure SecureBuffer where
  size_ : Nat
  data_ : Option (List Nat)
deriving DecidableEq

/-- Embeds the `SecureBuffer<T>` constructor: throws `MemoryError` on a
zero-sized request, on `size_ > SIZE_MAX / sizeof(T)` (multiplication
overflow) and on failure of the opaque hardened allocator
`OPENSSL_secure_malloc` (outcome `allocOk`); otherwise owns a fresh region of
`size` elements (contents then caller-written; modelled as zeros). -/
def SecureBuffer.construct (sizeofT : Nat) (size : Nat) (allocOk : Bool) :
    Except CppError SecureBuffer :=
  if size = 0 then
    .error (.memoryError "Zero-sized buffer requested")
  else if SIZE_MAX_64 / sizeofT < size then
    .error (.memoryError "Requested buffer size is too large")
  else if allocOk = false then
    .error (.memoryError "Secure memory allocation failed")
  else
    .ok ⟨size, some (List.replicate size 0)⟩

/-- Embeds the `SecureBuffer` move constructor: the new buffer takes the
source's `size_` and `data_`; the source is left with `data_ = nullptr`,
`size_ = 0`.  Returns (moved-to, source-after-move). -/
def SecureBuffer.moveConstruct (other : SecureBuffer) :
    SecureBuffer × SecureBuffer :=
  (⟨other.size_, other.data_⟩, ⟨0, none⟩)

/-- Embeds `SecureBuffer` move assignment in its `this != &other` case (the
self-assignment guard makes the other case a no-op): the target's old region
is zeroed and freed, ownership transfers, the source is left with
`data_ = nullptr`, `size_ = 0`.  Returns (target-after, source-after). -/
def SecureBuffer.moveAssign (_target other : SecureBuffer) :
    SecureBuffer × SecureBuffer :=
  (⟨other.size_, other.data_⟩, ⟨0, none⟩)

/-! ## Base64 codec model

`Buffer::toBase64` / `Buffer::fromBase64` (memory.h) drive the OpenSSL Base64
BIO filter with `BIO_FLAGS_BASE64_NO_NL`.  The codec itself belongs to the
opaque Primitives Provider (spec §6: `base64Encode/Decode`), so it is modelled
here as the standard RFC 4648 alphabet with `=` padding and no newlines: the
executable encoder/decoder below stand for the bytes the BIO filter writes and
reads, with decoder failure standing for a negative `BIO_read` return. -/

/-- Character `i` of the RFC 4648 Base64 alphabet
`A..Z a..z 0..9 + /` (as emitted by the OpenSSL encoder). -/
def b64Char (n : Nat) : Char :=
  if n < 26 then Char.ofNat (n + 65)
  else if n < 52 then Char.ofNat (n + 71)
  else if n < 62 then Char.ofNat (n - 4)
  else if n = 62 then '+'
  else '/'

/-- Position of a character in the Base64 alphabet, `none` for a character
outside it. -/
def b64Index (c : Char) : Option Nat :=
  if 'A' ≤ c ∧ c ≤ 'Z' then some (c.toNat - 65)
  else if 'a' ≤ c ∧ c ≤ 'z' then some (c.toNat - 71)
  else if '0' ≤ c ∧ c ≤ '9' then some (c.toNat + 4)
  else if c = '+' then some 62
  else if c = '/' then some 63
  else none

/-- Base64 encoding of a byte list: 3-byte groups become 4 alphabet
characters; a trailing group of 1 or 2 bytes is padded with `=`. -/
def base64EncodeBytes : List Nat → List Char
  | [] => []
  | [a] => [b64Char (a / 4), b64Char (a % 4 * 16), '=', '=']
  | [a, b] => [b64Char (a / 4), b64Char (a % 4 * 16 + b / 16),
               b64Char (b % 16 * 4), '=']
  | a :: b :: c :: rest =>
      b64Char (a / 4) :: b64Char (a % 4 * 16 + b / 16) ::
      b64Char (b % 16 * 4 + c / 64) :: b64Char (c % 64) ::
      base64EncodeBytes rest

/-- Base64 decoding of a character list: 4-character groups, `=` padding only
in the last group, every input of any other shape rejected. -/
def base64Decode : List Char → Option (List Nat)
  | [] => some []
  | c1 :: c2 :: c3 :: c4 :: rest =>
      match b64Index c1, b64Index c2 with
      | some n1, some n2 =>
          if c3 = '=' then
            if c4 = '=' ∧ rest = [] then some [n1 * 4 + n2 / 16] else none
          else
            match b64Index c3 with
            | some n3 =>
                if c4 = '=' then
                  if rest = [] then
                    some [n1 * 4 + n2 / 16, n2 % 16 * 16 + n3 / 4]
                  else none
                else
                  match b64Index c4, base64Decode rest with
                  | some n4, some tail =>
                      some ((n1 * 4 + n2 / 16) :: (n2 % 16 * 16 + n3 / 4) ::
                            (n3 % 4 * 64 + n4) :: tail)
                  | _, _ => none
            | none => none
      | _, _ => none
  | _ => none

/-! ## Buffer and its semantic specializations (memory.h) -/

/-- Value state of a `quantum::Buffer` (a byte-typed `SecureBuffer` whose
region holds `bytes`). -/
structure Buffer where
  bytes : List Nat
deriving DecidableEq

/-- Embeds the `Buffer(const uint8_t*, size_t)` constructor: the underlying
`SecureBuffer<uint8_t>` constructor throws `MemoryError` on a zero-sized
request, then the raw bytes are copied into the fresh region.  (Hardened
allocator failure, an out-of-memory condition, is not modelled on this
byte-copy path.) -/
def Buffer.construct (data : List Nat) : Except CppError Buffer :=
  if data.length = 0 then
    .error (.memoryError "Zero-sized buffer requested")
  else
    .ok ⟨data⟩

/-- Embeds `Buffer::toBase64`: writes the buffer through the Base64 BIO
filter.  `BIO_write(bio, data(), size())` returns a non-positive value for a
zero-length write, which the code turns into a `MemoryError`; otherwise the
accumulated memory-BIO contents are returned as the encoded string. -/
def Buffer.toBase64 (b : Buffer) : Except CppError String :=
  if b.bytes.length = 0 then
    .error (.memoryError "BIO_write failed")
  else
    .ok ⟨base64EncodeBytes b.bytes⟩

/-- Embeds `Buffer::fromBase64`: a negative `BIO_read` (decoder failure on
malformed input) becomes a `MemoryError`; otherwise the first `length`
decoded bytes are copied into a fresh `Buffer`, whose constructor throws on a
zero-length decode result. -/
def Buffer.fromBase64 (s : String) : Except CppError Buffer :=
  match base64Decode s.toList with
  | none => .error (.memoryError "Base64 decoding failed")
  | some bs => Buffer.construct bs

/-! ## Orchestrator (quantum.cpp)

`QuantumCrypto::Implementation` owns one liboqs signature context
(`dilithium`), one KEM context (`kyber`), the `SecurityMonitor` and the
`EntropyPool`.  The liboqs contexts are opaque Algorithm Provider black boxes
(spec §6); their fixed lengths and per-call outcomes appear as fields of
`OQSSig` / `OQSKem`.  Opaque host outcomes (OpenSSL `RAND_status`,
`RAND_bytes`, the hardened allocator) are gathered in `HostEnv`.  The mutex is
not modelled (every embedded operation is the serialized critical section). -/

/-- Opaque model of the `OQS_SIG` dilithium context: its fixed lengths and
the outcomes of its entry points for the call under consideration
(`OQS_SUCCESS = 0`). -/
structure OQSSig where
  length_public_key : Nat
  length_secret_key : Nat
  length_signature : Nat
  keypairStatus : Int
  keypairPublic : List Nat
  keypairSecret : List Nat
  signStatus : Int
  signOutput : List Nat
  signLen : Nat
  verifyStatus : List Nat → List Nat → List Nat → Int

/-- Opaque model of the `OQS_KEM` kyber context. -/
structure OQSKem where
  length_public_key : Nat
  length_secret_key : Nat
  length_ciphertext : Nat
  length_shared_secret : Nat
  keypairStatus : Int
  keypairPublic : List Nat
  keypairSecret : List Nat
  encapsStatus : Int
  encapsCiphertext : List Nat
  encapsSecret : List Nat
  decapsStatus : Int
  decapsSecret : List Nat

/-- The liboqs status value `OQS_SUCCESS`. -/
def OQS_SUCCESS : Int := 0

/-- Outcomes of the opaque host primitives during one operation:
`RAND_status()`, `RAND_bytes` success and output, the hardened allocator, and
the `RAND_bytes` call inside `EntropyPool::getBytes`. -/
structure HostEnv where
  randStatus : Int
  randBytesOk : Bool
  randOut : List Nat
  allocOk : Bool
  poolRandOk : Bool
  poolBytes : List Nat

/-- Mutable state of `QuantumCrypto::Implementation` that the embedded
operations read and write: the monitor and the entropy pool. -/
structure ImplState where
  monitor : SecurityMonitorState
  entropy : EntropyPoolState
deriving DecidableEq

/-- Embeds `QuantumCrypto::validateSecurityLevel`: throws
`QuantumError("Security level compromised")` when the monitor reports the
level not maintained. -/
def QuantumCrypto.validateSecurityLevel (st : ImplState) : Except CppError Unit :=
  if SecurityMonitor.isSecurityLevelMaintained st.monitor then .ok ()
  else .error (.quantumError "Security level compromised")

/-- Embeds `QuantumCrypto::checkForSideChannels`: throws when the monitor
reports a side-channel vulnerability. -/
def QuantumCrypto.checkForSideChannels (st : ImplState) : Except CppError Unit :=
  if SecurityMonitor.detectSideChannelVulnerability st.monitor then
    .error (.quantumError "Side-channel vulnerability detected")
  else .ok ()

/-- Embeds `QuantumCrypto::monitorEntropy`: throws when `RAND_status() != 1`
or when the probe `RAND_bytes(buf, 32)` fails. -/
def QuantumCrypto.monitorEntropy (randStatus : Int) (randBytesOk : Bool) :
    Except CppError Unit :=
  if randStatus ≠ 1 then .error (.quantumError "Insufficient entropy available")
  else if randBytesOk = false then
    .error (.quantumError "Failed to generate random bytes - entropy pool may be depleted")
  else .ok ()

/-- Embeds the uniform `catch (const std::exception &e) { monitor.logFailure(opName,
e.what()); throw; }` epilogue wrapped around each operation body: on an
exceptional outcome the failure is appended to the monitor sink and the same
exception is re-raised; a normal outcome passes through unchanged. -/
def catchLog {α : Type} (opName : String)
    (r : Except CppError α × ImplState) : Except CppError α × ImplState :=
  match r with
  | (.error e, st) =>
      (.error e, { st with monitor := SecurityMonitor.logFailure st.monitor opName e.what })
  | (.ok a, st) => (.ok a, st)

/-- Embeds `quantum::KeyPair` (public and private key bytes). -/
structure KeyPair where
  publicKey : List Nat
  privateKey : List Nat

/-- Embeds `quantum::KyberResult` (ciphertext and shared-secret bytes). -/
structure KyberResult where
  ciphertext : List Nat
  sharedSecret : List Nat

/-- The try-block of `QuantumCrypto::generateDilithiumKeyPair`: level check,
entropy monitor probe, three `SecureBuffer` allocations, a 32-byte
`EntropyPool::getBytes` draw, then `OQS_SIG_keypair`; a non-success provider
status throws `QuantumError("Dilithium key generation failed")`. -/
def generateDilithiumKeyPairBody (impl : ImplState) (ctx : OQSSig)
    (env : HostEnv) : Except CppError KeyPair × ImplState :=
  match QuantumCrypto.validateSecurityLevel impl with
  | .error e => (.error e, impl)
  | .ok () =>
  match QuantumCrypto.monitorEntropy env.randStatus env.randBytesOk with
  | .error e => (.error e, impl)
  | .ok () =>
  match SecureBuffer.construct 1 ctx.length_public_key env.allocOk with
  | .error e => (.error e, impl)
  | .ok _publicKey =>
  match SecureBuffer.construct 1 ctx.length_secret_key env.allocOk with
  | .error e => (.error e, impl)
  | .ok _privateKey =>
  match SecureBuffer.construct 1 32 env.allocOk with
  | .error e => (.error e, impl)
  | .ok _entropyBytes =>
  match EntropyPool.getBytes impl.entropy 32 env.poolRandOk env.poolBytes with
  | (.error e, ent) => (.error e, { impl with entropy := ent })
  | (.ok _temp, ent) =>
      let impl := { impl with entropy := ent }
      if ctx.keypairStatus ≠ OQS_SUCCESS then
        (.error (.quantumError "Dilithium key generation failed"), impl)
      else
        (.ok ⟨ctx.keypairPublic, ctx.keypairSecret⟩, impl)

/-- Embeds `QuantumCrypto::generateDilithiumKeyPair` (body plus the log-and-rethrow
catch). -/
def QuantumCrypto.generateDilithiumKeyPair (impl : ImplState) (ctx : OQSSig)
    (env : HostEnv) : Except CppError KeyPair × ImplState :=
  catchLog "Dilithium Key Generation" (generateDilithiumKeyPairBody impl ctx env)

/-- The try-block of `QuantumCrypto::generateKyberKeyPair`: level check,
entropy monitor probe, two allocations, then `OQS_KEM_keypair`. -/
def generateKyberKeyPairBody (impl : ImplState) (ctx : OQSKem)
    (env : HostEnv) : Except CppError KeyPair × ImplState :=
  match QuantumCrypto.validateSecurityLevel impl with
  | .error e => (.error e, impl)
  | .ok () =>
  match QuantumCrypto.monitorEntropy env.randStatus env.randBytesOk with
  | .error e => (.error e, impl)
  | .ok () =>
  match SecureBuffer.construct 1 ctx.length_public_key env.allocOk with
  | .error e => (.error e, impl)
  | .ok _publicKey =>
  match SecureBuffer.construct 1 ctx.length_secret_key env.allocOk with
  | .error e => (.error e, impl)
  | .ok _privateKey =>
      if ctx.keypairStatus ≠ OQS_SUCCESS then
        (.error (.quantumError "Kyber key generation failed"), impl)
      else
        (.ok ⟨ctx.keypairPublic, ctx.keypairSecret⟩, impl)

/-- Embeds `QuantumCrypto::generateKyberKeyPair`. -/
def QuantumCrypto.generateKyberKeyPair (impl : ImplState) (ctx : OQSKem)
    (env : HostEnv) : Except CppError KeyPair × ImplState :=
  catchLog "Kyber Key Generation" (generateKyberKeyPairBody impl ctx env)

/-- The try-block of `QuantumCrypto::sign`: level check, signature-buffer
allocation at the context's fixed signature length, then `OQS_SIG_sign`; the
returned `Signature` holds the first `sigLen` provider-written bytes. -/
def signBody (impl : ImplState) (ctx : OQSSig) (env : HostEnv)
    (_message _key : List Nat) : Except CppError (List Nat) × ImplState :=
  match QuantumCrypto.validateSecurityLevel impl with
  | .error e => (.error e, impl)
  | .ok () =>
  match SecureBuffer.construct 1 ctx.length_signature env.allocOk with
  | .error e => (.error e, impl)
  | .ok _signature =>
      if ctx.signStatus ≠ OQS_SUCCESS then
        (.error (.quantumError "Signing failed"), impl)
      else
        (.ok (ctx.signOutput.take ctx.signLen), impl)

/-- Embeds `QuantumCrypto::sign`. -/
def QuantumCrypto.sign (impl : ImplState) (ctx : OQSSig) (env : HostEnv)
    (message key : List Nat) : Except CppError (List Nat) × ImplState :=
  catchLog "Signing" (signBody impl ctx env message key)

/-- The try-block of `QuantumCrypto::verify`: level check; then the signature
size is compared with the context's `length_signature` — a mismatch is logged
and yields `false` (a return, not a throw); then `OQS_SIG_verify` — a
non-success status is logged and yields `false`, success yields `true`. -/
def verifyBody (impl : ImplState) (ctx : OQSSig)
    (message signature key : List Nat) : Except CppError Bool × ImplState :=
  match QuantumCrypto.validateSecurityLevel impl with
  | .error e => (.error e, impl)
  | .ok () =>
      if signature.length ≠ ctx.length_signature then
        (.ok false,
         { impl with monitor :=
            SecurityMonitor.logFailure impl.monitor "Verify" "Signature length mismatch" })
      else if ctx.verifyStatus message signature key ≠ OQS_SUCCESS then
        (.ok false,
         { impl with monitor :=
            SecurityMonitor.logFailure impl.monitor "Verify" "Signature verification failed" })
      else
        (.ok true, impl)

/-- Embeds `QuantumCrypto::verify`. -/
def QuantumCrypto.verify (impl : ImplState) (ctx : OQSSig)
    (message signature key : List Nat) : Except CppError Bool × ImplState :=
  catchLog "Verify" (verifyBody impl ctx message signature key)

/-- The try-block of `QuantumCrypto::kyberEncapsulate`: level check, two
allocations, then `OQS_KEM_encaps`. -/
def kyberEncapsulateBody (impl : ImplState) (ctx : OQSKem) (env : HostEnv)
    (_key : List Nat) : Except CppError KyberResult × ImplState :=
  match QuantumCrypto.validateSecurityLevel impl with
  | .error e => (.error e, impl)
  | .ok () =>
  match SecureBuffer.construct 1 ctx.length_ciphertext env.allocOk with
  | .error e => (.error e, impl)
  | .ok _ciphertext =>
  match SecureBuffer.construct 1 ctx.length_shared_secret env.allocOk with
  | .error e => (.error e, impl)
  | .ok _sharedSecret =>
      if ctx.encapsStatus ≠ OQS_SUCCESS then
        (.error (.quantumError "Kyber encapsulation failed"), impl)
      else
        (.ok ⟨ctx.encapsCiphertext, ctx.encapsSecret⟩, impl)

/-- Embeds `QuantumCrypto::kyberEncapsulate`. -/
def QuantumCrypto.kyberEncapsulate (impl : ImplState) (ctx : OQSKem)
    (env : HostEnv) (key : List Nat) : Except CppError KyberResult × ImplState :=
  catchLog "Kyber Encapsulation" (kyberEncapsulateBody impl ctx env key)

/-- The try-block of `QuantumCrypto::kyberDecapsulate`: level check, one
allocation, then `OQS_KEM_decaps`. -/
def kyberDecapsulateBody (impl : ImplState) (ctx : OQSKem) (env : HostEnv)
    (_ciphertext _key : List Nat) : Except CppError (List Nat) × ImplState :=
  match QuantumCrypto.validateSecurityLevel impl with
  | .error e => (.error e, impl)
  | .ok () =>
  match SecureBuffer.construct 1 ctx.length_shared_secret env.allocOk with
  | .error e => (.error e, impl)
  | .ok _sharedSecret =>
      if ctx.decapsStatus ≠ OQS_SUCCESS then
        (.error (.quantumError "Kyber decapsulation failed"), impl)
      else
        (.ok ctx.decapsSecret, impl)

/-- Embeds `QuantumCrypto::kyberDecapsulate`. -/
def QuantumCrypto.kyberDecapsulate (impl : ImplState) (ctx : OQSKem)
    (env : HostEnv) (ciphertext key : List Nat) :
    Except CppError (List Nat) × ImplState :=
  catchLog "Kyber Decapsulation" (kyberDecapsulateBody impl ctx env ciphertext key)

/-- Embeds `QuantumCrypto::generateSecureRandom`: constructs `Buffer
result(length)` (whose `SecureBuffer` constructor throws on `length == 0`),
fills it with `RAND_bytes` — a provider failure throws — and returns it.
There is no lock acquisition, no security-level check and no monitor logging
on this path. -/
def QuantumCrypto.generateSecureRandom (env : HostEnv) (length : Nat) :
    Except CppError (List Nat) :=
  match SecureBuffer.construct 1 length env.allocOk with
  | .error e => .error e
  | .ok _result =>
      if env.randBytesOk = false then
        .error (.quantumError "Failed to generate secure random bytes")
      else
        .ok (env.randOut.take length)

/-- Embeds `QuantumCrypto::healthCheck`: inside one `try { ... } catch (...)
{ return false; }`, checks `EntropyPool::hasGoodQuality`, performs a
generate→sign→verify round trip on throwaway material (with the `PrivateKey`
and `PublicKey` copy constructions from the key-pair bytes), then the
side-channel advisory check; every exceptional outcome of a stage becomes the
result `false`, with state changes made before the failure kept. -/
def QuantumCrypto.healthCheck (impl : ImplState) (ctx : OQSSig)
    (env : HostEnv) : Bool × ImplState :=
  if EntropyPool.hasGoodQuality impl.entropy = false then (false, impl)
  else
    match QuantumCrypto.generateDilithiumKeyPair impl ctx env with
    | (.error _, st) => (false, st)
    | (.ok testKeyPair, st) =>
    match QuantumCrypto.generateSecureRandom env 32 with
    | .error _ => (false, st)
    | .ok testMessage =>
    match Buffer.construct testKeyPair.privateKey with
    | .error _ => (false, st)
    | .ok priv =>
    match QuantumCrypto.sign st ctx env testMessage priv.bytes with
    | (.error _, st2) => (false, st2)
    | (.ok testSig, st2) =>
    match Buffer.construct testKeyPair.publicKey with
    | .error _ => (false, st2)
    | .ok pub =>
    match QuantumCrypto.verify st2 ctx testMessage testSig pub.bytes with
    | (.error _, st3) => (false, st3)
    | (.ok ok, st3) =>
        if ok = false then (false, st3)
        else
          match QuantumCrypto.checkForSideChannels st3 with
          | .error _ => (false, st3)
          | .ok () => (true, st3)

/-! ## Helper lemmas -/

/-- Every Base64 alphabet character decodes back to its index. -/
theorem b64Index_b64Char : ∀ n < 64, b64Index (b64Char n) = some n := by decide

/-- No alphabet character is the padding character. -/
theorem b64Char_ne_pad : ∀ n < 64, b64Char n ≠ '=' := by decide

/-- Decoding inverts encoding on every byte list. -/
theorem base64_decode_encode : ∀ (s : List Nat), (∀ x ∈ s, x < 256) →
    base64Decode (base64EncodeBytes s) = some s
  | [], _h => rfl
  | [a], h => by
      have ha : a < 256 := h a (by simp)
      have e1 := b64Index_b64Char (a / 4) (by omega)
      have e2 := b64Index_b64Char (a % 4 * 16) (by omega)
      simp only [base64EncodeBytes, base64Decode, e1, e2, reduceIte, and_self,
        Option.some.injEq, List.cons.injEq, and_true]
      omega
  | [a, b], h => by
      have ha : a < 256 := h a (by simp)
      have hb : b < 256 := h b (by simp)
      have e1 := b64Index_b64Char (a / 4) (by omega)
      have e2 := b64Index_b64Char (a % 4 * 16 + b / 16) (by omega)
      have e3 := b64Index_b64Char (b % 16 * 4) (by omega)
      have ne3 := b64Char_ne_pad (b % 16 * 4) (by omega)
      simp only [base64EncodeBytes, base64Decode, e1, e2, e3, ne3, reduceIte,
        if_false, and_self, Option.some.injEq, List.cons.injEq, and_true]
      omega
  | a :: b :: c :: rest, h => by
      have ha : a < 256 := h a (by simp)
      have hb : b < 256 := h b (by simp)
      have hc : c < 256 := h c (by simp)
      have ih := base64_decode_encode rest (fun x hx => h x (by simp [hx]))
      have e1 := b64Index_b64Char (a / 4) (by omega)
      have e2 := b64Index_b64Char (a % 4 * 16 + b / 16) (by omega)
      have e3 := b64Index_b64Char (b % 16 * 4 + c / 64) (by omega)
      have e4 := b64Index_b64Char (c % 64) (by omega)
      have ne3 := eq_false (b64Char_ne_pad (b % 16 * 4 + c / 64) (by omega))
      have ne4 := eq_false (b64Char_ne_pad (c % 64) (by omega))
      simp only [base64EncodeBytes, base64Decode, e1, e2, e3, e4, ne3, ne4, ih,
        if_false, reduceIte, Option.some.injEq, List.cons.injEq, and_true]
      omega

/-- When the monitor reports the level maintained, the level check passes. -/
theorem validateSecurityLevel_ok (impl : ImplState)
    (h : impl.monitor.securityLevelMaintained = true) :
    QuantumCrypto.validateSecurityLevel impl = .ok () := by
  simp [QuantumCrypto.validateSecurityLevel, SecurityMonitor.isSecurityLevelMaintained, h]

/-- When the monitor reports the level not maintained, the level check throws
the security-level error. -/
theorem validateSecurityLevel_compromised (impl : ImplState)
    (h : impl.monitor.securityLevelMaintained = false) :
    QuantumCrypto.validateSecurityLevel impl
      = .error (.quantumError "Security level compromised") := by
  simp [QuantumCrypto.validateSecurityLevel, SecurityMonitor.isSecurityLevelMaintained, h]

/-- The log-and-rethrow epilogue never changes the operation's outcome. -/
theorem catchLog_fst {α : Type} (n : String) (r : Except CppError α × ImplState) :
    (catchLog n r).1 = r.1 := by
  obtain ⟨res, st⟩ := r
  cases res <;> rfl

/-- The log-and-rethrow epilogue never changes the security-level flag. -/
theorem catchLog_level {α : Type} (n : String) (r : Except CppError α × ImplState) :
    ((catchLog n r).2).monitor.securityLevelMaintained
      = ((r.2).monitor).securityLevelMaintained := by
  obtain ⟨res, st⟩ := r
  cases res <;> rfl

/-- A compromised level flag makes the dilithium key-generation body fail
with the security-level error before any other work. -/
theorem generateDilithiumKeyPairBody_compromised (impl : ImplState) (ctx : OQSSig)
    (env : HostEnv) (h : impl.monitor.securityLevelMaintained = false) :
    generateDilithiumKeyPairBody impl ctx env
      = (.error (.quantumError "Security level compromised"), impl) := by
  simp [generateDilithiumKeyPairBody, validateSecurityLevel_compromised impl h]

/-- A compromised level flag makes the kyber key-generation body fail with
the security-level error before any other work. -/
theorem generateKyberKeyPairBody_compromised (impl : ImplState) (ctx : OQSKem)
    (env : HostEnv) (h : impl.monitor.securityLevelMaintained = false) :
    generateKyberKeyPairBody impl ctx env
      = (.error (.quantumError "Security level compromised"), impl) := by
  simp [generateKyberKeyPairBody, validateSecurityLevel_compromised impl h]

/-- A compromised level flag makes the sign body fail with the security-level
error before any other work. -/
theorem signBody_compromised (impl : ImplState) (ctx : OQSSig) (env : HostEnv)
    (m k : List Nat) (h : impl.monitor.securityLevelMaintained = false) :
    signBody impl ctx env m k
      = (.error (.quantumError "Security level compromised"), impl) := by
  simp [signBody, validateSecurityLevel_compromised impl h]

/-- A compromised level flag makes the verify body fail with the
security-level error before any other work. -/
theorem verifyBody_compromised (impl : ImplState) (ctx : OQSSig)
    (m s k : List Nat) (h : impl.monitor.securityLevelMaintained = false) :
    verifyBody impl ctx m s k
      = (.error (.quantumError "Security level compromised"), impl) := by
  simp [verifyBody, validateSecurityLevel_compromised impl h]

/-- A compromised level flag makes the encapsulation body fail with the
security-level error before any other work. -/
theorem kyberEncapsulateBody_compromised (impl : ImplState) (ctx : OQSKem)
    (env : HostEnv) (k : List Nat) (h : impl.monitor.securityLevelMaintained = false) :
    kyberEncapsulateBody impl ctx env k
      = (.error (.quantumError "Security level compromised"), impl) := by
  simp [kyberEncapsulateBody, validateSecurityLevel_compromised impl h]

/-- A compromised level flag makes the decapsulation body fail with the
security-level error before any other work. -/
theorem kyberDecapsulateBody_compromised (impl : ImplState) (ctx : OQSKem)
    (env : HostEnv) (ct k : List Nat) (h : impl.monitor.securityLevelMaintained = false) :
    kyberDecapsulateBody impl ctx env ct k
      = (.error (.quantumError "Security level compromised"), impl) := by
  simp [kyberDecapsulateBody, validateSecurityLevel_compromised impl h]

/-- The dilithium key-generation body preserves the security-level flag. -/
theorem generateDilithiumKeyPairBody_level (impl : ImplState) (ctx : OQSSig)
    (env : HostEnv) :
    ((generateDilithiumKeyPairBody impl ctx env).2).monitor.securityLevelMaintained
      = impl.monitor.securityLevelMaintained := by
  unfold generateDilithiumKeyPairBody
  repeat' split
  all_goals rfl

/-- The kyber key-generation body preserves the security-level flag. -/
theorem generateKyberKeyPairBody_level (impl : ImplState) (ctx : OQSKem)
    (env : HostEnv) :
    ((generateKyberKeyPairBody impl ctx env).2).monitor.securityLevelMaintained
      = impl.monitor.securityLevelMaintained := by
  unfold generateKyberKeyPairBody
  repeat' split
  all_goals rfl

/-- The sign body preserves the security-level flag. -/
theorem signBody_level (impl : ImplState) (ctx : OQSSig) (env : HostEnv)
    (m k : List Nat) :
    ((signBody impl ctx env m k).2).monitor.securityLevelMaintained
      = impl.monitor.securityLevelMaintained := by
  unfold signBody
  repeat' split
  all_goals rfl

/-- The verify body preserves the security-level flag. -/
theorem verifyBody_level (impl : ImplState) (ctx : OQSSig) (m s k : List Nat) :
    ((verifyBody impl ctx m s k).2).monitor.securityLevelMaintained
      = impl.monitor.securityLevelMaintained := by
  unfold verifyBody
  repeat' split
  all_goals rfl

/-- The encapsulation body preserves the security-level flag. -/
theorem kyberEncapsulateBody_level (impl : ImplState) (ctx : OQSKem)
    (env : HostEnv) (k : List Nat) :
    ((kyberEncapsulateBody impl ctx env k).2).monitor.securityLevelMaintained
      = impl.monitor.securityLevelMaintained := by
  unfold kyberEncapsulateBody
  repeat' split
  all_goals rfl

/-- The decapsulation body preserves the security-level flag. -/
theorem kyberDecapsulateBody_level (impl : ImplState) (ctx : OQSKem)
    (env : HostEnv) (ct k : List Nat) :
    ((kyberDecapsulateBody impl ctx env ct k).2).monitor.securityLevelMaintained
      = impl.monitor.securityLevelMaintained := by
  unfold kyberDecapsulateBody
  repeat' split
  all_goals rfl

/-- The dilithium key-generation operation preserves the security-level flag. -/
theorem generateDilithiumKeyPair_level (impl : ImplState) (ctx : OQSSig)
    (env : HostEnv) :
    ((QuantumCrypto.generateDilithiumKeyPair impl ctx env).2).monitor.securityLevelMaintained
      = impl.monitor.securityLevelMaintained := by
  unfold QuantumCrypto.generateDilithiumKeyPair
  rw [catchLog_level, generateDilithiumKeyPairBody_level]

/-- The kyber key-generation operation preserves the security-level flag. -/
theorem generateKyberKeyPair_level (impl : ImplState) (ctx : OQSKem)
    (env : HostEnv) :
    ((QuantumCrypto.generateKyberKeyPair impl ctx env).2).monitor.securityLevelMaintained
      = impl.monitor.securityLevelMaintained := by
  unfold QuantumCrypto.generateKyberKeyPair
  rw [catchLog_level, generateKyberKeyPairBody_level]

/-- The sign operation preserves the security-level flag. -/
theorem sign_level (impl : ImplState) (ctx : OQSSig) (env : HostEnv)
    (m k : List Nat) :
    ((QuantumCrypto.sign impl ctx env m k).2).monitor.securityLevelMaintained
      = impl.monitor.securityLevelMaintained := by
  unfold QuantumCrypto.sign
  rw [catchLog_level, signBody_level]

/-- The verify operation preserves the security-level flag. -/
theorem verify_level (impl : ImplState) (ctx : OQSSig) (m s k : List Nat) :
    ((QuantumCrypto.verify impl ctx m s k).2).monitor.securityLevelMaintained
      = impl.monitor.securityLevelMaintained := by
  unfold QuantumCrypto.verify
  rw [catchLog_level, verifyBody_level]

/-- The encapsulation operation preserves the security-level flag. -/
theorem kyberEncapsulate_level (impl : ImplState) (ctx : OQSKem)
    (env : HostEnv) (k : List Nat) :
    ((QuantumCrypto.kyberEncapsulate impl ctx env k).2).monitor.securityLevelMaintained
      = impl.monitor.securityLevelMaintained := by
  unfold QuantumCrypto.kyberEncapsulate
  rw [catchLog_level, kyberEncapsulateBody_level]

/-- The decapsulation operation preserves the security-level flag. -/
theorem kyberDecapsulate_level (impl : ImplState) (ctx : OQSKem)
    (env : HostEnv) (ct k : List Nat) :
    ((QuantumCrypto.kyberDecapsulate impl ctx env ct k).2).monitor.securityLevelMaintained
      = impl.monitor.securityLevelMaintained := by
  unfold QuantumCrypto.kyberDecapsulate
  rw [catchLog_level, kyberDecapsulateBody_level]

/-- The health check preserves the security-level flag (it only composes the
other operations, each of which preserves it). -/
theorem healthCheck_level (impl : ImplState) (ctx : OQSSig) (env : HostEnv) :
    ((QuantumCrypto.healthCheck impl ctx env).2).monitor.securityLevelMaintained
      = impl.monitor.securityLevelMaintained := by
  unfold QuantumCrypto.healthCheck
  split
  · rfl
  split <;> rename_i heq1 <;>
    (have h1 := congrArg (fun p => p.2.monitor.securityLevelMaintained) heq1;
     simp only at h1;
     rw [generateDilithiumKeyPair_level] at h1)
  · exact h1.symm
  split
  · exact h1.symm
  split
  · exact h1.symm
  split <;> rename_i heq2 <;>
    (have h2 := congrArg (fun p => p.2.monitor.securityLevelMaintained) heq2;
     simp only at h2;
     rw [sign_level] at h2)
  · exact (h1.trans h2).symm
  split
  · exact (h1.trans h2).symm
  split <;> rename_i heq3 <;>
    (have h3 := congrArg (fun p => p.2.monitor.securityLevelMaintained) heq3;
     simp only at h3;
     rw [verify_level] at h3)
  · exact (h1.trans (h2.trans h3)).symm
  split
  · exact (h1.trans (h2.trans h3)).symm
  split
  · exact (h1.trans (h2.trans h3)).symm
  · exact (h1.trans (h2.trans h3)).symm

/-- A compromised level flag makes the dilithium key-generation operation
raise the security-level error. -/
theorem generateDilithiumKeyPair_compromised_fst (impl : ImplState) (ctx : OQSSig)
    (env : HostEnv) (h : impl.monitor.securityLevelMaintained = false) :
    (QuantumCrypto.generateDilithiumKeyPair impl ctx env).1
      = .error (.quantumError "Security level compromised") := by
  unfold QuantumCrypto.generateDilithiumKeyPair
  rw [catchLog_fst, generateDilithiumKeyPairBody_compromised impl ctx env h]

/-- If the dilithium key generation fails, the health check reports `false`
instead of propagating the failure. -/
theorem healthCheck_false_of_keygen_error (impl : ImplState) (ctx : OQSSig)
    (env : HostEnv) (er : CppError)
    (h : (QuantumCrypto.generateDilithiumKeyPair impl ctx env).1 = .error er) :
    (QuantumCrypto.healthCheck impl ctx env).1 = false := by
  unfold QuantumCrypto.healthCheck
  split
  · rfl
  split <;> rename_i heq
  · rfl
  · rw [heq] at h
    simp at h

/-! ## Monitor state machine (for the reachable-state invariant)

The in-scope mutators of `SecurityMonitor` state are `logFailure` and
`initialize` (the flag accessors are pure reads, and the orchestrator touches
the monitor only through these).  A reachable monitor state is the result of
running any sequence of these from the constructed state. -/

/-- One in-scope `SecurityMonitor` mutation. -/
inductive MonitorOp where
  | logFailure (operation error : String)
  | reset

/-- Applies one monitor mutation. -/
def MonitorOp.apply (st : SecurityMonitorState) : MonitorOp → SecurityMonitorState
  | .logFailure op err => SecurityMonitor.logFailure st op err
  | .reset => SecurityMonitor.reset st

/-- Runs a sequence of monitor mutations. -/
def monitorRun (st : SecurityMonitorState) (ops : List MonitorOp) : SecurityMonitorState :=
  ops.foldl MonitorOp.apply st

/-- Running any mutation sequence keeps the security-level flag true. -/
theorem monitorRun_preserves_level (ops : List MonitorOp) :
    ∀ st : SecurityMonitorState, st.securityLevelMaintained = true →
      (monitorRun st ops).securityLevelMaintained = true := by
  induction ops with
  | nil => intro st h; exact h
  | cons op ops ih =>
      intro st h
      rw [monitorRun, List.foldl_cons]
      exact ih (MonitorOp.apply st op)
        (by cases op <;>
          simp [MonitorOp.apply, SecurityMonitor.logFailure, SecurityMonitor.reset, h])

/-! ## Concrete fixtures used by witnesses and counterexamples -/

/-- A fresh post-construction orchestrator state (level maintained, empty
sink, zero entropy consumed). -/
def implOk : ImplState := ⟨⟨true, false, []⟩, ⟨0⟩⟩

/-- An orchestrator state with the level maintained and 512 bytes of
cumulative entropy. -/
def implRich : ImplState := ⟨⟨true, false, []⟩, ⟨512⟩⟩

/-- An orchestrator state whose monitor reports the level not maintained. -/
def implCompromised : ImplState := ⟨⟨false, false, []⟩, ⟨512⟩⟩

/-- A host environment in which every opaque primitive succeeds. -/
def envOk : HostEnv := ⟨1, true, List.replicate 32 7, true, true, List.replicate 32 5⟩

/-- A small concrete signature context whose provider calls all succeed. -/
def testSigCtx : OQSSig :=
  ⟨2, 4, 3, 0, [1, 2], [3, 4, 5, 6], 0, [7, 8, 9], 3, fun _ _ _ => 0⟩

/-- A small concrete KEM context whose provider calls all succeed. -/
def testKemCtx : OQSKem :=
  ⟨2, 4, 5, 6, 0, [1, 2], [3, 4, 5, 6], 0, [1, 1, 1, 1, 1], [2, 2, 2, 2, 2, 2], 0,
   [9, 9, 9, 9, 9, 9]⟩

/-! ## Claims -/

/-- C1: in any state where the monitor reports the security level maintained
(the only reachable kind of state), `QuantumCrypto::verify` first compares
the signature's length with the context's fixed `length_signature` and on a
mismatch returns `false` without raising; on a match it delegates to the
provider's `OQS_SIG_verify` and returns `true` exactly when the provider
reports `OQS_SUCCESS`, `false` for any other provider outcome. -/
theorem C1_verify_length_gate_and_delegation (impl : ImplState) (ctx : OQSSig)
    (message signature key : List Nat)
    (h : impl.monitor.securityLevelMaintained = true) :
    (signature.length ≠ ctx.length_signature →
        (QuantumCrypto.verify impl ctx message signature key).1 = .ok false)
    ∧ (signature.length = ctx.length_signature →
        (QuantumCrypto.verify impl ctx message signature key).1
          = .ok (decide (ctx.verifyStatus message signature key = OQS_SUCCESS))) := by
  refine ⟨fun hne => ?_, fun heq => ?_⟩ <;>
    (unfold QuantumCrypto.verify
     rw [catchLog_fst]
     unfold verifyBody
     rw [validateSecurityLevel_ok impl h])
  · simp [hne]
  · by_cases hs : ctx.verifyStatus message signature key = OQS_SUCCESS <;>
      simp [heq, hs]

/-- Witness for C1: a 2-byte signature against the fixture context (signature
length 3) verifies to `false`; a 3-byte signature with a succeeding provider
verifies to `true`. -/
theorem C1_witness :
    (QuantumCrypto.verify implRich testSigCtx [1] [9, 9] [2]).1 = .ok false
    ∧ (QuantumCrypto.verify implRich testSigCtx [1] [9, 9, 9] [2]).1 = .ok true := by
  have ha := C1_verify_length_gate_and_delegation implRich testSigCtx [1] [9, 9] [2] rfl
  have hb := C1_verify_length_gate_and_delegation implRich testSigCtx [1] [9, 9, 9] [2] rfl
  exact ⟨ha.1 (by decide), by rw [hb.2 rfl]; rfl⟩

/-- C2 counterexample: the empty byte sequence admits no round trip.  A
zero-sized `Buffer` cannot be constructed (`SecureBuffer` rejects size 0 with
`MemoryError`), and even on an empty region `toBase64` throws because
`BIO_write` of zero bytes returns a non-positive value, so
`fromBase64(toBase64(b))` cannot produce an empty buffer. -/
theorem C2_counterexample :
    Buffer.toBase64 ⟨[]⟩ = .error (.memoryError "BIO_write failed")
    ∧ Buffer.construct [] = .error (.memoryError "Zero-sized buffer requested") :=
  ⟨rfl, rfl⟩

/-- C2 (amended): for every non-empty byte sequence, including sequences
ranging over all 256 byte values, `fromBase64(toBase64(b))` succeeds and
yields a buffer with exactly the original size and bytes; the empty sequence
is excluded because no zero-sized buffer exists and a zero-length
`BIO_write` fails. -/
theorem C2_base64_roundtrip (b : Buffer) (h1 : b.bytes ≠ [])
    (h2 : ∀ x ∈ b.bytes, x < 256) :
    Buffer.toBase64 b = .ok ⟨base64EncodeBytes b.bytes⟩
    ∧ Buffer.fromBase64 ⟨base64EncodeBytes b.bytes⟩ = .ok b := by
  constructor
  · simp [Buffer.toBase64, List.length_eq_zero, h1]
  · unfold Buffer.fromBase64
    have ht : (String.mk (base64EncodeBytes b.bytes)).toList
        = base64EncodeBytes b.bytes := rfl
    rw [ht, base64_decode_encode b.bytes h2]
    simp [Buffer.construct, List.length_eq_zero, h1]

/-- Witness for C2: a concrete 4-byte payload (with a 0 and a 255 byte)
round-trips through the Base64 codec. -/
theorem C2_witness :
    Buffer.toBase64 ⟨[0, 255, 10, 77]⟩ = .ok ⟨base64EncodeBytes [0, 255, 10, 77]⟩
    ∧ Buffer.fromBase64 ⟨base64EncodeBytes [0, 255, 10, 77]⟩ = .ok ⟨[0, 255, 10, 77]⟩ :=
  C2_base64_roundtrip ⟨[0, 255, 10, 77]⟩ (by decide) (by decide)

/-- C3 counterexample: `generateSecureRandom` performs no security-level
check at all — it takes no lock and never consults the monitor — so even
while the process monitor reports the level not maintained it succeeds
instead of failing with the security-level error. -/
theorem C3_counterexample :
    SecurityMonitor.isSecurityLevelMaintained implCompromised.monitor = false
    ∧ QuantumCrypto.generateSecureRandom envOk 32 = .ok (List.replicate 32 7) := by
  exact ⟨rfl, rfl⟩

/-- C3 (amended): every public orchestrator operation except
`generateSecureRandom` — key-pair generation for both kinds, sign, verify,
encapsulate and decapsulate — begins by checking the monitor's level flag and
fails with the security-level error whenever the monitor reports the level
not maintained, before any operation-specific work; `generateSecureRandom`
performs no such check and succeeds (for a positive in-range length with
healthy host primitives) regardless of any monitor state. -/
theorem C3_level_gate (impl : ImplState) (sctx : OQSSig) (kctx : OQSKem)
    (env : HostEnv) (m s k ct : List Nat) (n : Nat)
    (h : impl.monitor.securityLevelMaintained = false) :
    (QuantumCrypto.generateDilithiumKeyPair impl sctx env).1
        = .error (.quantumError "Security level compromised")
    ∧ (QuantumCrypto.generateKyberKeyPair impl kctx env).1
        = .error (.quantumError "Security level compromised")
    ∧ (QuantumCrypto.sign impl sctx env m k).1
        = .error (.quantumError "Security level compromised")
    ∧ (QuantumCrypto.verify impl sctx m s k).1
        = .error (.quantumError "Security level compromised")
    ∧ (QuantumCrypto.kyberEncapsulate impl kctx env k).1
        = .error (.quantumError "Security level compromised")
    ∧ (QuantumCrypto.kyberDecapsulate impl kctx env ct k).1
        = .error (.quantumError "Security level compromised")
    ∧ (env.allocOk = true → env.randBytesOk = true → 0 < n → n ≤ SIZE_MAX_64 →
        QuantumCrypto.generateSecureRandom env n = .ok (env.randOut.take n)) := by
  refine ⟨?_, ?_, ?_, ?_, ?_, ?_, ?_⟩
  · exact generateDilithiumKeyPair_compromised_fst impl sctx env h
  · unfold QuantumCrypto.generateKyberKeyPair
    rw [catchLog_fst, generateKyberKeyPairBody_compromised impl kctx env h]
  · unfold QuantumCrypto.sign
    rw [catchLog_fst, signBody_compromised impl sctx env m k h]
  · unfold QuantumCrypto.verify
    rw [catchLog_fst, verifyBody_compromised impl sctx m s k h]
  · unfold QuantumCrypto.kyberEncapsulate
    rw [catchLog_fst, kyberEncapsulateBody_compromised impl kctx env k h]
  · unfold QuantumCrypto.kyberDecapsulate
    rw [catchLog_fst, kyberDecapsulateBody_compromised impl kctx env ct k h]
  · intro ha hr hn hmax
    unfold QuantumCrypto.generateSecureRandom SecureBuffer.construct
    rw [Nat.div_one]
    rw [if_neg (by omega), if_neg (by omega), if_neg (by simp [ha])]
    simp [hr]

/-- Witness for C3 (amended): with the compromised fixture state, sign fails
with the security-level error while `generateSecureRandom` succeeds. -/
theorem C3_witness :
    (QuantumCrypto.sign implCompromised testSigCtx envOk [1] [2]).1
        = .error (.quantumError "Security level compromised")
    ∧ QuantumCrypto.generateSecureRandom envOk 32 = .ok (List.replicate 32 7) := by
  have h := C3_level_gate implCompromised testSigCtx testKemCtx envOk
    [1] [] [2] [] 32 rfl
  refine ⟨h.2.2.1, ?_⟩
  have h32 := h.2.2.2.2.2.2 rfl rfl (by decide) (by decide)
  rw [h32]
  rfl

/-- C4 counterexample: when an exception does arise inside verify's protected
block (here the security-level check, the one throw site in the embedded
scope), the code logs it and re-raises the *original* exception unchanged —
a `QuantumError`, the same value the level check produced — not a distinct
`VerificationError`; no such class exists anywhere in the source. -/
theorem C4_counterexample :
    (QuantumCrypto.verify implCompromised testSigCtx [1] [9, 9, 9] [2]).1
        = .error (.quantumError "Security level compromised")
    ∧ (QuantumCrypto.verify implCompromised testSigCtx [1] [9, 9, 9] [2]).1
        ≠ .error (.verificationError "Security level compromised") := by
  have h1 : (QuantumCrypto.verify implCompromised testSigCtx [1] [9, 9, 9] [2]).1
      = .error (.quantumError "Security level compromised") := rfl
  exact ⟨h1, by rw [h1]; simp⟩

/-- C4 (amended): when an unexpected exception arises during verify (as
opposed to a negative verification result), verify logs the failure under the
operation name "Verify" in the monitor sink and re-raises the original error
unchanged, so callers can distinguish an invalid signature (`false`) from an
inability to verify (a raised error) — but the re-raised error is the
original exception, not a wrapping `VerificationError`. -/
theorem C4_verify_logs_and_reraises (impl : ImplState) (ctx : OQSSig)
    (m s k : List Nat) (h : impl.monitor.securityLevelMaintained = false) :
    (QuantumCrypto.verify impl ctx m s k).1
        = .error (.quantumError "Security level compromised")
    ∧ ((QuantumCrypto.verify impl ctx m s k).2).monitor.log
        = impl.monitor.log ++ [("Verify", "Security level compromised")] := by
  unfold QuantumCrypto.verify
  rw [verifyBody_compromised impl ctx m s k h]
  exact ⟨rfl, rfl⟩

/-- Witness for C4 (amended): the compromised fixture state, where the
security-level check throws: the error surfaces unchanged and the sink gains
the "Verify" record. -/
theorem C4_witness :
    (QuantumCrypto.verify implCompromised testSigCtx [1] [9, 9, 9] [2]).1
        = .error (.quantumError "Security level compromised")
    ∧ ((QuantumCrypto.verify implCompromised testSigCtx [1] [9, 9, 9] [2]).2).monitor.log
        = [("Verify", "Security level compromised")] := by
  have h := C4_verify_logs_and_reraises implCompromised testSigCtx [1] [9, 9, 9] [2] rfl
  exact ⟨h.1, h.2⟩

/-- C5: the health check never propagates a failure: when the entropy gate
reports unhealthy it returns `false` at once (state untouched), even if
every later stage would succeed; a failing key-generation stage is swallowed
into the result `false`; and a `true` result certifies that the entropy gate
was healthy and the security level maintained. -/
theorem C5_healthCheck_swallows (impl : ImplState) (ctx : OQSSig)
    (env : HostEnv) (er : CppError) :
    (EntropyPool.hasGoodQuality impl.entropy = false →
        QuantumCrypto.healthCheck impl ctx env = (false, impl))
    ∧ ((QuantumCrypto.generateDilithiumKeyPair impl ctx env).1 = .error er →
        (QuantumCrypto.healthCheck impl ctx env).1 = false)
    ∧ ((QuantumCrypto.healthCheck impl ctx env).1 = true →
        EntropyPool.hasGoodQuality impl.entropy = true
        ∧ impl.monitor.securityLevelMaintained = true) := by
  refine ⟨fun hq => ?_, fun hk => healthCheck_false_of_keygen_error impl ctx env er hk, fun ht => ?_⟩
  · unfold QuantumCrypto.healthCheck
    rw [if_pos hq]
  · constructor
    · by_contra hq
      have hq' : EntropyPool.hasGoodQuality impl.entropy = false := by
        revert hq
        cases EntropyPool.hasGoodQuality impl.entropy <;> simp
      unfold QuantumCrypto.healthCheck at ht
      rw [if_pos hq'] at ht
      simp at ht
    · by_contra hl
      have hl' : impl.monitor.securityLevelMaintained = false := by
        revert hl
        cases impl.monitor.securityLevelMaintained <;> simp
      have hk := generateDilithiumKeyPair_compromised_fst impl ctx env hl'
      have hf := healthCheck_false_of_keygen_error impl ctx env _ hk
      rw [ht] at hf
      exact Bool.noConfusion hf

/-- Witness for C5: a fresh state with zero cumulative entropy is unhealthy,
so the health check returns `false` with the state unchanged, although every
provider call in the fixture environment would succeed. -/
theorem C5_witness :
    QuantumCrypto.healthCheck implOk testSigCtx envOk = (false, implOk) := by
  have h := C5_healthCheck_swallows implOk testSigCtx envOk (.quantumError "unused")
  exact h.1 (by decide)

/-- C6 counterexample: the `size_t` counter wraps.  At the reachable counter
value `2^64 - 1` the gate is healthy, yet one more successful 1-byte draw
wraps the counter to 0 — it decreases — and the quality predicate reverts to
`false`, refuting "the counter never decreases" and "remains true after every
subsequent operation". -/
theorem C6_counterexample :
    EntropyPool.hasGoodQuality ⟨2 ^ 64 - 1⟩ = true
    ∧ ((EntropyPool.getBytes ⟨2 ^ 64 - 1⟩ 1 true [0]).2).entropyLevel = 0
    ∧ EntropyPool.hasGoodQuality (EntropyPool.getBytes ⟨2 ^ 64 - 1⟩ 1 true [0]).2
        = false := by
  refine ⟨by decide, by decide, by decide⟩

/-- C6 (amended): the entropy gate's quality predicate is true exactly when
the byte counter is at least 256; every successful draw of `n` bytes sets the
`size_t` counter to `(counter + n) mod 2^64` and a failed draw leaves the
state unchanged; across every draw that does not overflow the 64-bit counter
the counter never decreases and a healthy gate stays healthy — only a draw
that wraps the counter (cumulative total crossing `2^64`) can lower it. -/
theorem C6_entropy_gate (st : EntropyPoolState) (n : Nat) (randOk : Bool)
    (bytes : List Nat) :
    (EntropyPool.hasGoodQuality st = true ↔ 256 ≤ st.entropyLevel)
    ∧ (randOk = true →
        ((EntropyPool.getBytes st n randOk bytes).2).entropyLevel
          = (st.entropyLevel + n) % 2 ^ 64)
    ∧ (randOk = false → (EntropyPool.getBytes st n randOk bytes).2 = st)
    ∧ (st.entropyLevel + n < 2 ^ 64 →
        st.entropyLevel ≤ ((EntropyPool.getBytes st n randOk bytes).2).entropyLevel)
    ∧ (st.entropyLevel + n < 2 ^ 64 → EntropyPool.hasGoodQuality st = true →
        EntropyPool.hasGoodQuality ((EntropyPool.getBytes st n randOk bytes).2)
          = true) := by
  refine ⟨?_, fun hr => ?_, fun hr => ?_, fun hlt => ?_, fun hlt hq => ?_⟩
  · simp [EntropyPool.hasGoodQuality, MIN_ENTROPY_LEVEL]
  · subst hr
    rfl
  · subst hr
    rfl
  · cases randOk
    · simp [EntropyPool.getBytes]
    · simp only [EntropyPool.getBytes, reduceIte]
      rw [Nat.mod_eq_of_lt hlt]
      exact Nat.le_add_right _ _
  · cases randOk
    · simpa [EntropyPool.getBytes] using hq
    · simp only [EntropyPool.getBytes, reduceIte]
      simp only [EntropyPool.hasGoodQuality, MIN_ENTROPY_LEVEL,
        decide_eq_true_eq] at hq ⊢
      rw [Nat.mod_eq_of_lt hlt]
      omega

/-- Witness for C6 (amended): at 250 cumulative bytes the gate is unhealthy;
a successful non-overflowing 6-byte draw moves the counter to 256; from 256 a
further non-overflowing draw keeps the gate healthy. -/
theorem C6_witness :
    EntropyPool.hasGoodQuality ⟨250⟩ = false
    ∧ ((EntropyPool.getBytes ⟨250⟩ 6 true []).2).entropyLevel = 256
    ∧ EntropyPool.hasGoodQuality (EntropyPool.getBytes ⟨256⟩ 1 true []).2 = true := by
  have ha := C6_entropy_gate ⟨250⟩ 6 true []
  have hb := C6_entropy_gate ⟨256⟩ 1 true []
  refine ⟨by decide, ?_, hb.2.2.2.2 (by decide) (by decide)⟩
  rw [ha.2.1 rfl]
  decide

/-- C7: secure-buffer acquisition fails with the allocation error exactly
when the requested element count is zero, when `size * sizeof(T)` would
overflow `size_t` arithmetic, or when the hardened allocator cannot satisfy
the request; for every in-range positive count with a succeeding allocator it
yields a buffer of exactly that size with an owned region. -/
theorem C7_secure_acquire (sizeofT n : Nat) (allocOk : Bool)
    (_hT : 0 < sizeofT) :
    (n = 0 → SecureBuffer.construct sizeofT n allocOk
        = .error (.memoryError "Zero-sized buffer requested"))
    ∧ (SIZE_MAX_64 / sizeofT < n → 0 < n →
        SecureBuffer.construct sizeofT n allocOk
          = .error (.memoryError "Requested buffer size is too large"))
    ∧ (allocOk = false → 0 < n → n ≤ SIZE_MAX_64 / sizeofT →
        SecureBuffer.construct sizeofT n allocOk
          = .error (.memoryError "Secure memory allocation failed"))
    ∧ (0 < n → n ≤ SIZE_MAX_64 / sizeofT → allocOk = true →
        SecureBuffer.construct sizeofT n allocOk
          = .ok ⟨n, some (List.replicate n 0)⟩) := by
  refine ⟨fun h0 => ?_, fun hover hpos => ?_, fun ha hpos hbound => ?_,
          fun hpos hbound ha => ?_⟩ <;> unfold SecureBuffer.construct
  · rw [if_pos h0]
  · rw [if_neg (by omega), if_pos hover]
  · rw [if_neg (by omega), if_neg (by omega), if_pos ha]
  · rw [if_neg (by omega), if_neg (by omega), if_neg (by simp [ha])]

/-- Witness for C7: a zero-sized request fails; a 3-element request with a
succeeding allocator yields a 3-element owned buffer. -/
theorem C7_witness :
    SecureBuffer.construct 1 0 true = .error (.memoryError "Zero-sized buffer requested")
    ∧ SecureBuffer.construct 1 3 true = .ok ⟨3, some (List.replicate 3 0)⟩ := by
  have h0 := C7_secure_acquire 1 0 true (by decide)
  have h3 := C7_secure_acquire 1 3 true (by decide)
  exact ⟨h0.1 rfl, h3.2.2.2 (by decide) (by decide) rfl⟩

/-- C8: for a secure buffer holding bytes `bs`, both move construction and
move assignment leave the source in the empty state (`size_ = 0`, null
region) while the moved-to buffer has the source's original size and holds
the original bytes unchanged. -/
theorem C8_move_semantics (target source : SecureBuffer) (bs : List Nat)
    (h : source.data_ = some bs) :
    ((SecureBuffer.moveConstruct source).1.size_ = source.size_
      ∧ (SecureBuffer.moveConstruct source).1.data_ = some bs
      ∧ (SecureBuffer.moveConstruct source).2.size_ = 0
      ∧ (SecureBuffer.moveConstruct source).2.data_ = none)
    ∧ ((SecureBuffer.moveAssign target source).1.size_ = source.size_
      ∧ (SecureBuffer.moveAssign target source).1.data_ = some bs
      ∧ (SecureBuffer.moveAssign target source).2.size_ = 0
      ∧ (SecureBuffer.moveAssign target source).2.data_ = none) := by
  simp [SecureBuffer.moveConstruct, SecureBuffer.moveAssign, h]

/-- Witness for C8: moving out of a concrete 3-byte buffer transfers size and
bytes and empties the source. -/
theorem C8_witness :
    (SecureBuffer.moveConstruct ⟨3, some [1, 2, 3]⟩).1.data_ = some [1, 2, 3]
    ∧ (SecureBuffer.moveConstruct ⟨3, some [1, 2, 3]⟩).2.size_ = 0
    ∧ (SecureBuffer.moveAssign ⟨2, some [7, 7]⟩ ⟨3, some [1, 2, 3]⟩).1.data_
        = some [1, 2, 3] := by
  have h := C8_move_semantics ⟨2, some [7, 7]⟩ ⟨3, some [1, 2, 3]⟩ [1, 2, 3] rfl
  exact ⟨h.1.2.1, h.1.2.2.1, h.2.2.1⟩

/-- C9: decoding a malformed Base64 string (one the provider decoder
rejects) fails with the encoding error; and whenever decoding returns a
buffer at all, that buffer holds exactly the complete decoded byte sequence
(never a partial fill), which is in particular non-empty. -/
theorem C9_fromBase64_malformed (s t : String)
    (hm : base64Decode s.toList = none) :
    Buffer.fromBase64 s = .error (.memoryError "Base64 decoding failed")
    ∧ (∀ b : Buffer, Buffer.fromBase64 t = .ok b →
        base64Decode t.toList = some b.bytes ∧ b.bytes ≠ []) := by
  constructor
  · unfold Buffer.fromBase64
    rw [hm]
  · intro b hb
    unfold Buffer.fromBase64 at hb
    split at hb
    · exact Except.noConfusion hb
    · rename_i bs hd
      unfold Buffer.construct at hb
      by_cases hz : bs.length = 0
      · rw [if_pos hz] at hb
        exact Except.noConfusion hb
      · rw [if_neg hz] at hb
        have hbb : Buffer.mk bs = b := by injection hb
        rw [hd]
        constructor
        · rw [← hbb]
        · rw [← hbb]
          intro hnil
          exact hz (by rw [show bs = ([] : List Nat) from hnil]; rfl)

/-- Witness for C9: the string "!!!!" is rejected by the decoder and
`fromBase64` fails with the encoding error. -/
theorem C9_witness :
    Buffer.fromBase64 "!!!!" = .error (.memoryError "Base64 decoding failed") :=
  (C9_fromBase64_malformed "!!!!" "" (by decide)).1

/-- C10: no in-scope operation ever clears the security-level flag: after
construction it is true, every monitor mutation (`logFailure`, re-initialization)
and every orchestrator operation preserves it, so in every reachable monitor
state `isSecurityLevelMaintained` is true and the security-level check of
every gated operation passes (its error branch is unreachable). -/
theorem C10_level_invariant (ops : List MonitorOp) (ent : EntropyPoolState)
    (impl : ImplState) (sctx : OQSSig) (kctx : OQSKem) (env : HostEnv)
    (m s k ct : List Nat) :
    (monitorRun SecurityMonitor.construct ops).securityLevelMaintained = true
    ∧ QuantumCrypto.validateSecurityLevel ⟨monitorRun SecurityMonitor.construct ops, ent⟩
        = .ok ()
    ∧ ((QuantumCrypto.generateDilithiumKeyPair impl sctx env).2).monitor.securityLevelMaintained
        = impl.monitor.securityLevelMaintained
    ∧ ((QuantumCrypto.generateKyberKeyPair impl kctx env).2).monitor.securityLevelMaintained
        = impl.monitor.securityLevelMaintained
    ∧ ((QuantumCrypto.sign impl sctx env m k).2).monitor.securityLevelMaintained
        = impl.monitor.securityLevelMaintained
    ∧ ((QuantumCrypto.verify impl sctx m s k).2).monitor.securityLevelMaintained
        = impl.monitor.securityLevelMaintained
    ∧ ((QuantumCrypto.kyberEncapsulate impl kctx env k).2).monitor.securityLevelMaintained
        = impl.monitor.securityLevelMaintained
    ∧ ((QuantumCrypto.kyberDecapsulate impl kctx env ct k).2).monitor.securityLevelMaintained
        = impl.monitor.securityLevelMaintained
    ∧ ((QuantumCrypto.healthCheck impl sctx env).2).monitor.securityLevelMaintained
        = impl.monitor.securityLevelMaintained := by
  have hrun := monitorRun_preserves_level ops SecurityMonitor.construct rfl
  refine ⟨hrun, validateSecurityLevel_ok _ hrun,
    generateDilithiumKeyPair_level impl sctx env,
    generateKyberKeyPair_level impl kctx env,
    sign_level impl sctx env m k,
    verify_level impl sctx m s k,
    kyberEncapsulate_level impl kctx env k,
    kyberDecapsulate_level impl kctx env ct k,
    healthCheck_level impl sctx env⟩

end H3Tag
